import Mathlib

/-
Verification development for the Braze batching client (src/braze.py).

The embedding models the Python module shallowly:
  * Python `datetime` values are modelled by their canonical `isoformat()`
    rendering (structure `Datetime`).
  * Python dicts are insertion-ordered association lists; `d[k] = v`
    replaces in place when the key exists and appends otherwise (`alSet`).
  * The HTTP transport collaborator is a parameter
    `respond : RequestBody → HttpResponse`.
  * The `while` loop of `BrazeClient.flush` is modelled with explicit fuel;
    `FlushResult.diverged` marks fuel exhaustion (Python would still be
    looping).  `time.sleep` and the log-file writes have no state effect
    beyond the request bodies we record in `FlushResult.logged`.
-/

/-- Models a Python `datetime` value by its canonical ISO-8601 rendering:
the field `iso` is exactly the string that `datetime.isoformat()` returns. -/
structure Datetime where
  iso : String
deriving DecidableEq

/-- Models the Python values that appear as user traits, event properties and
parsed JSON bodies: scalars, `None`, `datetime`, and nested dicts. -/
inductive Value where
  | null
  | str (s : String)
  | num (n : Int)
  | bool (b : Bool)
  | timestamp (d : Datetime)
  | obj (fields : List (String × Value))

/-- A Python `dict` with string keys, as an insertion-ordered association list. -/
abbrev Dict := List (String × Value)

/-- Python dict assignment `d[k] = v`: replace in place when the key exists,
append otherwise. -/
def alSet {κ α : Type} [DecidableEq κ] : List (κ × α) → κ → α → List (κ × α)
  | [], k, v => [(k, v)]
  | (k', v') :: t, k, v => if k' = k then (k, v) :: t else (k', v') :: alSet t k v

/-- Python dict lookup `d.get(k)`. -/
def alGet {κ α : Type} [DecidableEq κ] : List (κ × α) → κ → Option α
  | [], _ => none
  | (k', v') :: t, k => if k' = k then some v' else alGet t k

/-- The per-value branch shared by `BrazeUser.as_dict` and
`BrazeEvent.as_dict` (src/braze.py lines 172-178 and 270-276): `None` is kept
as an explicit `None`, a `datetime` is rendered with `isoformat()`, and any
other value passes through unchanged. -/
def serializeValue : Value → Value
  | .null => .null
  | .timestamp d => .str d.iso
  | v => v

/-- The serialization loop `for k, v in items: d[k] = <branch on v>` used by
both `as_dict` methods, starting from an already-populated base dict.
(The Python `try/except (ValueError, IndexError)` around this loop cannot
fire in the pure model: none of the branches can raise those exceptions.) -/
def serializeItems (base : Dict) (items : Dict) : Dict :=
  items.foldl (fun d kv => alSet d kv.1 (serializeValue kv.2)) base

/-- `BrazeUser` (src/braze.py lines 112-200): external identity plus an
open-ended trait dict and an optional back-reference to the owning client,
modelled as an opaque handle. -/
structure BrazeUser where
  external_id : Value
  update_existing_only : Bool
  traits : Dict
  braze : Option Nat

/-- `BrazeUser.as_dict` (src/braze.py lines 164-182): a dict literal holding
the two identity fields, then the traits merged over it in insertion order. -/
def BrazeUser.as_dict (u : BrazeUser) : Dict :=
  serializeItems
    [("external_campaign_id", u.external_id),
     ("update_existing_only", Value.bool u.update_existing_only)]
    u.traits

/-- Outcome of a record's own `enqueue` method.  A Python call either returns
a value to its caller or raises an exception; the source can produce only the
first two shapes (it executes `return ValueError(...)`, never `raise`). -/
inductive RecordEnqueueOutcome where
  | returnedValue (msg : String)
  | raised (msg : String)
  | handedTo (b : Nat)

/-- `BrazeUser.enqueue` (src/braze.py lines 184-200): when neither an explicit
client nor the stored back-reference exists the method executes
`return ValueError(...)`; otherwise it hands the record to the explicit
client when given, else to the stored one. -/
def BrazeUser.enqueue (u : BrazeUser) (braze : Option Nat) : RecordEnqueueOutcome :=
  match braze, u.braze with
  | none, none => .returnedValue "Braze API handler neither set nor passed as parameter"
  | some b, _ => .handedTo b
  | none, some b => .handedTo b

/-- `BrazeEvent` (src/braze.py lines 203-298): identity, name, timestamp
(defaulted to `utcnow()` at construction when absent — the caller of the
model supplies the resulting value), a property dict, and an optional
back-reference handle. -/
structure BrazeEvent where
  external_id : Value
  name : Value
  timestamp : Value
  properties : Dict
  braze : Option Nat

/-- `BrazeEvent.as_dict` (src/braze.py lines 259-280): identity, name and the
`time` field (rendered with `isoformat()` only when the stored timestamp is a
`datetime`), plus a nested `properties` dict only when properties exist. -/
def BrazeEvent.as_dict (e : BrazeEvent) : Dict :=
  let event_dict : Dict :=
    [("external_campaign_id", e.external_id),
     ("name", e.name),
     ("time", match e.timestamp with | .timestamp d => .str d.iso | v => v)]
  if e.properties.isEmpty then event_dict
  else alSet event_dict "properties" (Value.obj (serializeItems [] e.properties))

/-- `BrazeEvent.enqueue` (src/braze.py lines 282-298): same shape as
`BrazeUser.enqueue`, including the `return ValueError(...)` path. -/
def BrazeEvent.enqueue (e : BrazeEvent) (braze : Option Nat) : RecordEnqueueOutcome :=
  match braze, e.braze with
  | none, none => .returnedValue "Braze handler neither set nor passed as parameter"
  | some b, _ => .handedTo b
  | none, some b => .handedTo b

/-- `BrazeConfig` (src/braze.py lines 57-109). -/
structure BrazeConfig where
  endpoint : String
  api_key : String
  batch_size : Nat
  auto_flush : Bool
  send : Bool
  pause : Nat

/-- One request body built by an iteration of the flush loop: the `api_key`
key plus the optional `attributes` and `events` lists (each present exactly
when the corresponding queue was sliced this iteration). -/
structure RequestBody where
  api_key : String
  attributes : Option (List Dict)
  events : Option (List Dict)

/-- One entry of `self.requests` (src/braze.py lines 568-579): the request
body, target URL and flush timestamp, plus the HTTP outcome fields that are
added only when the request was actually sent. -/
structure RequestEntry where
  request : RequestBody
  url : String
  timestamp : Datetime
  ok : Option Bool
  status : Option Int
  response : Option Dict

/-- The transport collaborator's answer to a POST: status, ok flag and the
parsed JSON body. -/
structure HttpResponse where
  ok : Bool
  status : Int
  body : Dict

/-- The mutable state of a `BrazeClient` (src/braze.py lines 419-468):
configuration, the log destination (`self.log`, `none` when logging is
disabled), the `self.requests` mapping keyed by flush timestamp, and the two
pending queues. -/
structure BrazeClient where
  config : BrazeConfig
  log : Option String
  requests : List (Datetime × RequestEntry)
  user_queue : List BrazeUser
  event_queue : List BrazeEvent

/-- `resp.get('error') is not None` (src/braze.py line 586): the parsed
response carries a non-null `error` field. -/
def respError (body : Dict) : Option Value :=
  match alGet body "error" with
  | none => none
  | some .null => none
  | some v => some v

/-- The `while` condition of the flush loop (src/braze.py line 536):
`(flush_users and self.user_queue) or (flush_events and self.event_queue)`. -/
def flushGuard (flush_users flush_events : Bool) (st : BrazeClient) : Bool :=
  (flush_users && !st.user_queue.isEmpty) || (flush_events && !st.event_queue.isEmpty)

/-- `user_batch_size` of one iteration (src/braze.py lines 542-548): zero
unless users are being flushed and queued, else `min(len(queue), batch_size)`. -/
def userBatchSize (flush_users : Bool) (st : BrazeClient) : Nat :=
  if flush_users && !st.user_queue.isEmpty then
    min st.user_queue.length st.config.batch_size
  else 0

/-- `event_batch_size` of one iteration (src/braze.py lines 543-556). -/
def eventBatchSize (flush_events : Bool) (st : BrazeClient) : Nat :=
  if flush_events && !st.event_queue.isEmpty then
    min st.event_queue.length st.config.batch_size
  else 0

/-- The request body constructed by one iteration of the flush loop
(src/braze.py lines 538-559): `api_key` plus the serialized front slices of
the queues that are being flushed and are non-empty. -/
def buildRequestBody (flush_users flush_events : Bool) (st : BrazeClient) : RequestBody :=
  { api_key := st.config.api_key
    attributes :=
      if flush_users && !st.user_queue.isEmpty then
        some ((st.user_queue.take (userBatchSize flush_users st)).map BrazeUser.as_dict)
      else none
    events :=
      if flush_events && !st.event_queue.isEmpty then
        some ((st.event_queue.take (eventBatchSize flush_events st)).map BrazeEvent.as_dict)
      else none }

/-- The request bodies an iteration writes to the log sink (src/braze.py
lines 561-566): the constructed body when `self.log` is set, nothing
otherwise. -/
def logContrib (flush_users flush_events : Bool) (st : BrazeClient) : List RequestBody :=
  if st.log.isSome then [buildRequestBody flush_users flush_events st] else []

/-- The `self.requests[flush_time]` entry as first written (src/braze.py
lines 568-571): request body, track URL and timestamp, no HTTP outcome yet. -/
def baseEntry (ft : Datetime) (flush_users flush_events : Bool) (st : BrazeClient) : RequestEntry :=
  { request := buildRequestBody flush_users flush_events st
    url := st.config.endpoint ++ "/users/track"
    timestamp := ft
    ok := none
    status := none
    response := none }

/-- State after `self.requests[flush_time] = {...}` (src/braze.py line 568). -/
def recordRequest (flush_users flush_events : Bool) (ft : Datetime) (st : BrazeClient) : BrazeClient :=
  { st with requests := alSet st.requests ft (baseEntry ft flush_users flush_events st) }

/-- The `self.requests[flush_time]` entry after the POST outcome fields were
written into it (src/braze.py lines 577-579). -/
def sentEntry (respond : RequestBody → HttpResponse)
    (ft : Datetime) (flush_users flush_events : Bool) (st : BrazeClient) : RequestEntry :=
  { baseEntry ft flush_users flush_events st with
    ok := some (respond (buildRequestBody flush_users flush_events st)).ok
    status := some (respond (buildRequestBody flush_users flush_events st)).status
    response := some (respond (buildRequestBody flush_users flush_events st)).body }

/-- State after the POST outcome has been written into the same
`self.requests[flush_time]` entry (src/braze.py lines 574-579). -/
def recordResponse (respond : RequestBody → HttpResponse)
    (flush_users flush_events : Bool) (ft : Datetime) (st : BrazeClient) : BrazeClient :=
  { st with requests := alSet (recordRequest flush_users flush_events ft st).requests ft
                          (sentEntry respond ft flush_users flush_events st) }

/-- `if user_batch_size > 0: self.user_queue = self.user_queue[user_batch_size:]`
(src/braze.py lines 591-592). -/
def pruneUsers (st : BrazeClient) (ub : Nat) : BrazeClient :=
  if 0 < ub then { st with user_queue := st.user_queue.drop ub } else st

/-- `if event_batch_size > 0: self.event_queue = self.event_queue[event_batch_size:]`
(src/braze.py lines 595-596). -/
def pruneEvents (st : BrazeClient) (eb : Nat) : BrazeClient :=
  if 0 < eb then { st with event_queue := st.event_queue.drop eb } else st

/-- Both slice-removal steps of one loop iteration. -/
def pruneQueues (st : BrazeClient) (ub eb : Nat) : BrazeClient :=
  pruneEvents (pruneUsers st ub) eb

/-- Result of a flush call: the final client state, the request bodies written
to the log sink, the bodies physically POSTed, and whether the call returned
normally, raised the API error (`requests.RequestException`, carrying the
non-null `error` value), or ran out of fuel. -/
inductive FlushResult where
  | ok (st : BrazeClient) (logged posted : List RequestBody)
  | apiError (err : Value) (st : BrazeClient) (logged posted : List RequestBody)
  | diverged (st : BrazeClient) (logged posted : List RequestBody)

/-- Prepend one iteration's log and POST contributions to the result of the
remaining iterations. -/
def prependResult (l p : List RequestBody) : FlushResult → FlushResult
  | .ok st l2 p2 => .ok st (l ++ l2) (p ++ p2)
  | .apiError e st l2 p2 => .apiError e st (l ++ l2) (p ++ p2)
  | .diverged st l2 p2 => .diverged st (l ++ l2) (p ++ p2)

/-- The client state a flush result carries. -/
def FlushResult.state : FlushResult → BrazeClient
  | .ok st _ _ => st
  | .apiError _ st _ _ => st
  | .diverged st _ _ => st

/-- The request bodies written to the log sink during the flush. -/
def FlushResult.logged : FlushResult → List RequestBody
  | .ok _ l _ => l
  | .apiError _ _ l _ => l
  | .diverged _ l _ => l

/-- The request bodies physically POSTed during the flush. -/
def FlushResult.posted : FlushResult → List RequestBody
  | .ok _ _ p => p
  | .apiError _ _ _ p => p
  | .diverged _ _ p => p

/-- The `while` loop of `BrazeClient.flush` (src/braze.py lines 536-603),
with explicit fuel.  Each iteration builds the request body from the front
slices, logs it, writes the `self.requests[flush_time]` entry, and — only
when `send` is enabled — POSTs it, records the outcome, and raises
`requests.RequestException` when the parsed response has a non-null `error`
field, skipping the two slice-removal steps of that iteration.  `flush_time`
is fixed once for the whole call (src/braze.py line 534). -/
def flushLoop (respond : RequestBody → HttpResponse) (flush_users flush_events : Bool)
    (ft : Datetime) : Nat → BrazeClient → FlushResult
  | 0, st => if flushGuard flush_users flush_events st then .diverged st [] [] else .ok st [] []
  | fuel + 1, st =>
    if flushGuard flush_users flush_events st then
      if st.config.send then
        match respError (respond (buildRequestBody flush_users flush_events st)).body with
        | some err =>
            .apiError err (recordResponse respond flush_users flush_events ft st)
              (logContrib flush_users flush_events st)
              [buildRequestBody flush_users flush_events st]
        | none =>
            prependResult (logContrib flush_users flush_events st)
              [buildRequestBody flush_users flush_events st]
              (flushLoop respond flush_users flush_events ft fuel
                (pruneQueues (recordResponse respond flush_users flush_events ft st)
                  (userBatchSize flush_users st) (eventBatchSize flush_events st)))
      else
        prependResult (logContrib flush_users flush_events st) []
          (flushLoop respond flush_users flush_events ft fuel
            (pruneQueues (recordRequest flush_users flush_events ft st)
              (userBatchSize flush_users st) (eventBatchSize flush_events st)))
    else .ok st [] []

/-- `BrazeClient.flush` (src/braze.py lines 522-605): runs the loop with the
single `flush_time` stamp taken at entry. -/
def BrazeClient.flush (respond : RequestBody → HttpResponse) (ft : Datetime) (fuel : Nat)
    (st : BrazeClient) (flush_users flush_events : Bool) : FlushResult :=
  flushLoop respond flush_users flush_events ft fuel st

/-- An arbitrary Python object passed to `BrazeClient.enqueue`: a recognized
user variant, a recognized event variant, or anything else. -/
inductive Record where
  | user (u : BrazeUser)
  | event (e : BrazeEvent)
  | other

/-- Result of `BrazeClient.enqueue`: the raised usage error (state unchanged),
a plain return with no flush triggered, or the result of the single
synchronous `self.flush()` call it triggered. -/
inductive EnqueueResult where
  | usageError (msg : String) (st : BrazeClient)
  | noFlush (st : BrazeClient)
  | flushed (fr : FlushResult)

/-- The variant dispatch of `BrazeClient.enqueue` (src/braze.py lines
505-515): append a user to the user queue, an event to the event queue, and
`raise ValueError` for anything else — before either queue is touched. -/
def enqueueDispatch (st : BrazeClient) : Record → Except String BrazeClient
  | .user u => .ok { st with user_queue := st.user_queue ++ [u] }
  | .event e => .ok { st with event_queue := st.event_queue ++ [e] }
  | .other => .error "Object passed is neither a BrazeUser nor a BrazeEvent"

/-- `BrazeClient.enqueue` (src/braze.py lines 505-520): dispatch by variant,
then trigger exactly one synchronous `self.flush()` when auto-flush is on and
either queue's length has reached or exceeded `batch_size`. -/
def BrazeClient.enqueue (respond : RequestBody → HttpResponse) (ft : Datetime) (fuel : Nat)
    (st : BrazeClient) (obj : Record) : EnqueueResult :=
  match enqueueDispatch st obj with
  | .error msg => .usageError msg st
  | .ok st1 =>
    if st1.config.auto_flush = true ∧
        (st1.config.batch_size ≤ st1.user_queue.length ∨
         st1.config.batch_size ≤ st1.event_queue.length) then
      .flushed (BrazeClient.flush respond ft fuel st1 true true)
    else .noFlush st1

/-- An argument value in a Python call: a data value or the client itself
(`braze=self`). -/
inductive PyArg where
  | val (v : Value)
  | clientRef

/-- The parameters of `BrazeEvent.__init__` once keyword binding succeeded:
`external_id`, `name`, the defaulted `timestamp` and `braze`, and the
leftover `**kwargs`. -/
structure BoundEventInit where
  external_id : PyArg
  name : PyArg
  timestamp : PyArg
  braze : PyArg
  kwargs : List (String × PyArg)

/-- Python keyword binding for
`BrazeEvent.__init__(self, external_id, name, timestamp=None, braze=None, **kwargs)`
applied to a call made purely with keyword arguments: a missing required
parameter raises `TypeError`; keywords that match no named parameter are
collected into `**kwargs`. -/
def bindBrazeEventInit (args : List (String × PyArg)) : Except String BoundEventInit :=
  match alGet args "external_id" with
  | none => .error "TypeError: __init__ missing 1 required positional argument: external_id"
  | some eid =>
    match alGet args "name" with
    | none => .error "TypeError: __init__ missing 1 required positional argument: name"
    | some nm =>
      .ok { external_id := eid
            name := nm
            timestamp := (alGet args "timestamp").getD (.val .null)
            braze := (alGet args "braze").getD (.val .null)
            kwargs := args.filter
              (fun kv => !(["external_id", "name", "timestamp", "braze"].contains kv.1)) }

/-- `BrazeClient.event` (src/braze.py lines 500-503): it invokes
`BrazeEvent(external_campaign_id=external_id, name=name, timestamp=timestamp, braze=self, **kwargs)`.
We model the call up to `__init__` parameter binding; the constructor body is
modelled no further because binding never succeeds from this call site (the
required `external_id` parameter is never supplied).  The client state is
returned untouched: the method never reaches any queue operation. -/
def BrazeClient.event (st : BrazeClient) (external_id name timestamp : PyArg)
    (kwargs : List (String × PyArg)) : Except String BoundEventInit × BrazeClient :=
  if kwargs.any
      (fun kv => ["external_campaign_id", "name", "timestamp", "braze"].contains kv.1) then
    (Except.error "TypeError: got multiple values for a keyword argument", st)
  else
    (bindBrazeEventInit
      ([("external_campaign_id", external_id), ("name", name),
        ("timestamp", timestamp), ("braze", PyArg.clientRef)] ++ kwargs), st)

/- Concrete fixtures used by witnesses and counterexamples. -/

/-- A transport that always answers 200 with an empty JSON body. -/
def respondOk : RequestBody → HttpResponse :=
  fun _ => { ok := true, status := 200, body := [] }

/-- A transport that always answers with a non-null `error` field. -/
def respondErr : RequestBody → HttpResponse :=
  fun _ => { ok := false, status := 400, body := [("error", Value.str "boom")] }

/-- A fixed flush timestamp. -/
def ft0 : Datetime := ⟨"2020-01-01T00:00:00"⟩

/-- A second timestamp, distinct from `ft0`. -/
def ft1 : Datetime := ⟨"2020-01-02T00:00:00"⟩

/-- A user with identity `"a"` and no traits. -/
def u1c : BrazeUser :=
  { external_id := Value.str "a", update_existing_only := false, traits := [], braze := none }

/-- A user with identity `"b"` and no traits. -/
def u2c : BrazeUser :=
  { external_id := Value.str "b", update_existing_only := false, traits := [], braze := none }

/-- A concrete event with no properties. -/
def ev1c : BrazeEvent :=
  { external_id := Value.str "a", name := Value.str "evt",
    timestamp := Value.timestamp ft0, properties := [], braze := none }

/-- Dry-run client with `batch_size = 1` and two queued users: a single flush
call dispatches two batches under the same `flush_time` key. -/
def st0 : BrazeClient :=
  { config := { endpoint := "https://rest.example", api_key := "APIKEY",
                batch_size := 1, auto_flush := false, send := false, pause := 0 }
    log := some "braze.log"
    requests := []
    user_queue := [u1c, u2c]
    event_queue := [] }

/-- Dry-run client with `batch_size = 75`, 200 queued users and one queued
event. -/
def st4 : BrazeClient :=
  { config := { endpoint := "https://rest.example", api_key := "APIKEY",
                batch_size := 75, auto_flush := false, send := false, pause := 0 }
    log := some "braze.log"
    requests := []
    user_queue := List.replicate 200 u1c
    event_queue := [ev1c] }

/-- Auto-flush client with `batch_size = 2` and one user already pending. -/
def st5 : BrazeClient :=
  { config := { endpoint := "https://rest.example", api_key := "APIKEY",
                batch_size := 2, auto_flush := true, send := false, pause := 0 }
    log := some "braze.log"
    requests := []
    user_queue := [u1c]
    event_queue := [] }

/-- Sending client with one queued user. -/
def stSend : BrazeClient :=
  { config := { endpoint := "https://rest.example", api_key := "APIKEY",
                batch_size := 75, auto_flush := false, send := true, pause := 0 }
    log := some "braze.log"
    requests := []
    user_queue := [u1c]
    event_queue := [] }

/-- A timestamp used as a trait value. -/
def dt8 : Datetime := ⟨"2021-06-01T12:00:00"⟩

/-- A user carrying a timestamp trait, a null trait and a plain trait. -/
def u8 : BrazeUser :=
  { external_id := Value.str "u", update_existing_only := true,
    traits := [("signup", Value.timestamp dt8), ("nick", Value.null), ("age", Value.num 7)],
    braze := none }

/-- An event carrying a timestamp property and a null property. -/
def e8 : BrazeEvent :=
  { external_id := Value.str "u", name := Value.str "n",
    timestamp := Value.timestamp dt8,
    properties := [("when", Value.timestamp dt8), ("note", Value.null)],
    braze := none }

/-- A user whose traits collide with both serialized identity keys. -/
def u10 : BrazeUser :=
  { external_id := Value.str "real", update_existing_only := false,
    traits := [("external_campaign_id", Value.str "fake"),
               ("update_existing_only", Value.bool true)],
    braze := none }

/-- A user with no stored back-reference. -/
def uNoB : BrazeUser :=
  { external_id := Value.null, update_existing_only := false, traits := [], braze := none }

/-- An event with no stored back-reference. -/
def eNoB : BrazeEvent :=
  { external_id := Value.str "x", name := Value.str "n",
    timestamp := Value.null, properties := [], braze := none }

/-- A user with a stored back-reference to batcher 1. -/
def uWithB : BrazeUser :=
  { external_id := Value.null, update_existing_only := false, traits := [], braze := some 1 }

/- Helper lemmas about the dict operations. -/

theorem alGet_alSet_self {κ α : Type} [DecidableEq κ] (d : List (κ × α)) (k : κ) (v : α) :
    alGet (alSet d k v) k = some v := by
  induction d with
  | nil => simp [alSet, alGet]
  | cons hd t ih =>
    obtain ⟨k1, v1⟩ := hd
    by_cases h : k1 = k
    · simp [alSet, alGet, h]
    · simp [alSet, alGet, h, ih]

theorem alGet_alSet_ne {κ α : Type} [DecidableEq κ] (d : List (κ × α)) {k k' : κ} (v : α)
    (h : k' ≠ k) : alGet (alSet d k v) k' = alGet d k' := by
  induction d with
  | nil => simp [alSet, alGet, Ne.symm h]
  | cons hd t ih =>
    obtain ⟨k1, v1⟩ := hd
    by_cases h1 : k1 = k
    · subst h1
      simp [alSet, alGet, Ne.symm h]
    · by_cases h2 : k1 = k'
      · subst h2
        simp [alSet, alGet, h, h1]
      · simp [alSet, alGet, h1, h2, ih]

theorem alGet_append_of_none {κ α : Type} [DecidableEq κ] (d1 d2 : List (κ × α)) (k : κ)
    (h : alGet d1 k = none) : alGet (d1 ++ d2) k = alGet d2 k := by
  induction d1 with
  | nil => simp
  | cons hd t ih =>
    obtain ⟨k1, v1⟩ := hd
    by_cases h1 : k1 = k
    · simp [alGet, h1] at h
    · simp only [alGet, h1, if_false, List.cons_append] at h ⊢
      exact ih h

theorem alGet_serializeItems_not_mem (items : Dict) : ∀ (base : Dict) (k : String),
    k ∉ items.map Prod.fst → alGet (serializeItems base items) k = alGet base k := by
  induction items with
  | nil => intro base k _; rfl
  | cons hd t ih =>
    intro base k h
    obtain ⟨k1, v1⟩ := hd
    simp only [List.map_cons, List.mem_cons] at h
    push_neg at h
    have h1 : alGet (serializeItems base ((k1, v1) :: t)) k
        = alGet (serializeItems (alSet base k1 (serializeValue v1)) t) k := rfl
    rw [h1, ih _ k h.2, alGet_alSet_ne _ _ h.1]

theorem alGet_serializeItems (items : Dict) : ∀ (base : Dict) (k : String) (v : Value),
    (items.map Prod.fst).Nodup → alGet items k = some v →
    alGet (serializeItems base items) k = some (serializeValue v) := by
  induction items with
  | nil => intro base k v _ h; simp [alGet] at h
  | cons hd t ih =>
    intro base k v hnd h
    obtain ⟨k1, v1⟩ := hd
    simp only [List.map_cons, List.nodup_cons] at hnd
    have h1 : alGet (serializeItems base ((k1, v1) :: t)) k
        = alGet (serializeItems (alSet base k1 (serializeValue v1)) t) k := rfl
    by_cases hk : k1 = k
    · have hv : v1 = v := by simpa [alGet, hk] using h
      have hmem : k ∉ t.map Prod.fst := hk ▸ hnd.1
      rw [h1, alGet_serializeItems_not_mem t _ k hmem, ← hk, hv, alGet_alSet_self]
    · have ht : alGet t k = some v := by simpa [alGet, hk] using h
      rw [h1, ih _ k v hnd.2 ht]

/- Helper lemmas about the flush machinery. -/

theorem list_isEmpty_true_iff {α : Type} (l : List α) : l.isEmpty = true ↔ l = [] := by
  cases l <;> simp

theorem list_isEmpty_false_of_length_pos {α : Type} (l : List α) (h : 0 < l.length) :
    l.isEmpty = false := by
  cases l with
  | nil => simp at h
  | cons a t => rfl

theorem getLast?_cons_of_some {α : Type} (x : α) (l : List α) (b : α)
    (h : l.getLast? = some b) : (x :: l).getLast? = some b := by
  cases l with
  | nil => simp at h
  | cons y t => rw [List.getLast?_cons_cons]; exact h

theorem recordRequest_config (fu fe : Bool) (ft : Datetime) (st : BrazeClient) :
    (recordRequest fu fe ft st).config = st.config := rfl

theorem recordRequest_log (fu fe : Bool) (ft : Datetime) (st : BrazeClient) :
    (recordRequest fu fe ft st).log = st.log := rfl

theorem recordRequest_user_queue (fu fe : Bool) (ft : Datetime) (st : BrazeClient) :
    (recordRequest fu fe ft st).user_queue = st.user_queue := rfl

theorem recordRequest_event_queue (fu fe : Bool) (ft : Datetime) (st : BrazeClient) :
    (recordRequest fu fe ft st).event_queue = st.event_queue := rfl

theorem recordResponse_config (respond : RequestBody → HttpResponse) (fu fe : Bool)
    (ft : Datetime) (st : BrazeClient) : (recordResponse respond fu fe ft st).config = st.config := rfl

theorem recordResponse_log (respond : RequestBody → HttpResponse) (fu fe : Bool)
    (ft : Datetime) (st : BrazeClient) : (recordResponse respond fu fe ft st).log = st.log := rfl

theorem recordResponse_user_queue (respond : RequestBody → HttpResponse) (fu fe : Bool)
    (ft : Datetime) (st : BrazeClient) :
    (recordResponse respond fu fe ft st).user_queue = st.user_queue := rfl

theorem recordResponse_event_queue (respond : RequestBody → HttpResponse) (fu fe : Bool)
    (ft : Datetime) (st : BrazeClient) :
    (recordResponse respond fu fe ft st).event_queue = st.event_queue := rfl

theorem pruneUsers_config (st : BrazeClient) (ub : Nat) :
    (pruneUsers st ub).config = st.config := by unfold pruneUsers; split <;> rfl

theorem pruneUsers_log (st : BrazeClient) (ub : Nat) :
    (pruneUsers st ub).log = st.log := by unfold pruneUsers; split <;> rfl

theorem pruneUsers_requests (st : BrazeClient) (ub : Nat) :
    (pruneUsers st ub).requests = st.requests := by unfold pruneUsers; split <;> rfl

theorem pruneUsers_event_queue (st : BrazeClient) (ub : Nat) :
    (pruneUsers st ub).event_queue = st.event_queue := by unfold pruneUsers; split <;> rfl

theorem pruneUsers_user_queue (st : BrazeClient) (ub : Nat) :
    (pruneUsers st ub).user_queue
      = if 0 < ub then st.user_queue.drop ub else st.user_queue := by
  unfold pruneUsers; split <;> simp_all

theorem pruneEvents_config (st : BrazeClient) (eb : Nat) :
    (pruneEvents st eb).config = st.config := by unfold pruneEvents; split <;> rfl

theorem pruneEvents_log (st : BrazeClient) (eb : Nat) :
    (pruneEvents st eb).log = st.log := by unfold pruneEvents; split <;> rfl

theorem pruneEvents_requests (st : BrazeClient) (eb : Nat) :
    (pruneEvents st eb).requests = st.requests := by unfold pruneEvents; split <;> rfl

theorem pruneEvents_user_queue (st : BrazeClient) (eb : Nat) :
    (pruneEvents st eb).user_queue = st.user_queue := by unfold pruneEvents; split <;> rfl

theorem pruneEvents_event_queue (st : BrazeClient) (eb : Nat) :
    (pruneEvents st eb).event_queue
      = if 0 < eb then st.event_queue.drop eb else st.event_queue := by
  unfold pruneEvents; split <;> simp_all

theorem pruneQueues_config (st : BrazeClient) (ub eb : Nat) :
    (pruneQueues st ub eb).config = st.config := by
  unfold pruneQueues; rw [pruneEvents_config, pruneUsers_config]

theorem pruneQueues_log (st : BrazeClient) (ub eb : Nat) :
    (pruneQueues st ub eb).log = st.log := by
  unfold pruneQueues; rw [pruneEvents_log, pruneUsers_log]

theorem pruneQueues_requests (st : BrazeClient) (ub eb : Nat) :
    (pruneQueues st ub eb).requests = st.requests := by
  unfold pruneQueues; rw [pruneEvents_requests, pruneUsers_requests]

theorem pruneQueues_user_queue (st : BrazeClient) (ub eb : Nat) :
    (pruneQueues st ub eb).user_queue
      = if 0 < ub then st.user_queue.drop ub else st.user_queue := by
  unfold pruneQueues; rw [pruneEvents_user_queue, pruneUsers_user_queue]

theorem pruneQueues_event_queue (st : BrazeClient) (ub eb : Nat) :
    (pruneQueues st ub eb).event_queue
      = if 0 < eb then st.event_queue.drop eb else st.event_queue := by
  unfold pruneQueues; rw [pruneEvents_event_queue, pruneUsers_event_queue]

theorem prependResult_state (l p : List RequestBody) (r : FlushResult) :
    (prependResult l p r).state = r.state := by cases r <;> rfl

theorem prependResult_logged (l p : List RequestBody) (r : FlushResult) :
    (prependResult l p r).logged = l ++ r.logged := by cases r <;> rfl

theorem prependResult_posted (l p : List RequestBody) (r : FlushResult) :
    (prependResult l p r).posted = p ++ r.posted := by cases r <;> rfl

theorem flushGuard_all_false_iff (st : BrazeClient) :
    flushGuard true true st = false ↔ st.user_queue = [] ∧ st.event_queue = [] := by
  simp [flushGuard, list_isEmpty_true_iff]

theorem flushLoop_guard_false (respond : RequestBody → HttpResponse) (fu fe : Bool)
    (ft : Datetime) (st : BrazeClient) (h : flushGuard fu fe st = false) (fuel : Nat) :
    flushLoop respond fu fe ft fuel st = .ok st [] [] := by
  cases fuel <;> simp [flushLoop, h]

theorem flushLoop_drain (respond : RequestBody → HttpResponse) (ft : Datetime) :
    ∀ (fuel : Nat) (st : BrazeClient), st.config.send = false → 0 < st.config.batch_size →
    st.user_queue.length + st.event_queue.length ≤ fuel →
    ∃ st' l, flushLoop respond true true ft fuel st = .ok st' l [] ∧
      st'.user_queue = [] ∧ st'.event_queue = [] ∧ st'.config = st.config := by
  intro fuel
  induction fuel with
  | zero =>
    intro st hs hb hlen
    have hu : st.user_queue = [] := List.length_eq_zero.mp (by omega)
    have he : st.event_queue = [] := List.length_eq_zero.mp (by omega)
    exact ⟨st, [], flushLoop_guard_false respond true true ft st
      ((flushGuard_all_false_iff st).mpr ⟨hu, he⟩) 0, hu, he, rfl⟩
  | succ n ih =>
    intro st hs hb hlen
    by_cases hg : flushGuard true true st = true
    case neg =>
      have hg' : flushGuard true true st = false := by
        cases hgg : flushGuard true true st
        · rfl
        · exact absurd hgg hg
      obtain ⟨hu, he⟩ := (flushGuard_all_false_iff st).mp hg'
      exact ⟨st, [], flushLoop_guard_false respond true true ft st hg' (n + 1), hu, he, rfl⟩
    case pos =>
      have hubs_le : userBatchSize true st ≤ st.user_queue.length := by
        unfold userBatchSize; split
        · exact Nat.min_le_left _ _
        · exact Nat.zero_le _
      have hebs_le : eventBatchSize true st ≤ st.event_queue.length := by
        unfold eventBatchSize; split
        · exact Nat.min_le_left _ _
        · exact Nat.zero_le _
      have hcases : st.user_queue.isEmpty = false ∨ st.event_queue.isEmpty = false := by
        simpa [flushGuard] using hg
      have hpos : 0 < userBatchSize true st + eventBatchSize true st := by
        rcases hcases with h | h
        · have hl : 0 < st.user_queue.length := by
            cases hq : st.user_queue with
            | nil => rw [hq] at h; simp at h
            | cons a t => simp [hq]
          have : 0 < userBatchSize true st := by
            unfold userBatchSize
            rw [if_pos (by simp [h])]
            exact Nat.lt_min.mpr ⟨hl, hb⟩
          omega
        · have hl : 0 < st.event_queue.length := by
            cases hq : st.event_queue with
            | nil => rw [hq] at h; simp at h
            | cons a t => simp [hq]
          have : 0 < eventBatchSize true st := by
            unfold eventBatchSize
            rw [if_pos (by simp [h])]
            exact Nat.lt_min.mpr ⟨hl, hb⟩
          omega
      have hq3u : (pruneQueues (recordRequest true true ft st) (userBatchSize true st)
          (eventBatchSize true st)).user_queue.length
          = st.user_queue.length - userBatchSize true st := by
        rw [pruneQueues_user_queue, recordRequest_user_queue]
        split
        · simp
        · omega
      have hq3e : (pruneQueues (recordRequest true true ft st) (userBatchSize true st)
          (eventBatchSize true st)).event_queue.length
          = st.event_queue.length - eventBatchSize true st := by
        rw [pruneQueues_event_queue, recordRequest_event_queue]
        split
        · simp
        · omega
      have hstep : flushLoop respond true true ft (n + 1) st
          = prependResult (logContrib true true st) []
              (flushLoop respond true true ft n
                (pruneQueues (recordRequest true true ft st) (userBatchSize true st)
                  (eventBatchSize true st))) := by
        simp [flushLoop, hg, hs]
      obtain ⟨st', l, heq, h1, h2, h3⟩ := ih
        (pruneQueues (recordRequest true true ft st) (userBatchSize true st)
          (eventBatchSize true st))
        (by rw [pruneQueues_config, recordRequest_config]; exact hs)
        (by rw [pruneQueues_config, recordRequest_config]; exact hb)
        (by rw [hq3u, hq3e]; omega)
      refine ⟨st', logContrib true true st ++ l, ?_, h1, h2, ?_⟩
      · rw [hstep, heq]; rfl
      · rw [h3, pruneQueues_config, recordRequest_config]

theorem flushLoop_posted_nil (respond : RequestBody → HttpResponse) (fu fe : Bool)
    (ft : Datetime) : ∀ (fuel : Nat) (st : BrazeClient), st.config.send = false →
    (flushLoop respond fu fe ft fuel st).posted = [] := by
  intro fuel
  induction fuel with
  | zero =>
    intro st _
    by_cases hg : flushGuard fu fe st = true <;>
      simp [flushLoop, hg, FlushResult.posted]
  | succ n ih =>
    intro st hs
    by_cases hg : flushGuard fu fe st = true
    · have hstep : flushLoop respond fu fe ft (n + 1) st
          = prependResult (logContrib fu fe st) []
              (flushLoop respond fu fe ft n
                (pruneQueues (recordRequest fu fe ft st) (userBatchSize fu st)
                  (eventBatchSize fe st))) := by
        simp [flushLoop, hg, hs]
      rw [hstep, prependResult_posted,
        ih _ (by rw [pruneQueues_config, recordRequest_config]; exact hs)]
      rfl
    · have hg' : flushGuard fu fe st = false := by
        cases hgg : flushGuard fu fe st
        · rfl
        · exact absurd hgg hg
      rw [flushLoop_guard_false respond fu fe ft st hg' (n + 1)]
      rfl

theorem buildRequestBody_recordResponse (respond : RequestBody → HttpResponse)
    (fu fe fu2 fe2 : Bool) (ft : Datetime) (st : BrazeClient) :
    buildRequestBody fu fe (recordResponse respond fu2 fe2 ft st) = buildRequestBody fu fe st := rfl

theorem flushGuard_recordResponse (respond : RequestBody → HttpResponse)
    (fu fe fu2 fe2 : Bool) (ft : Datetime) (st : BrazeClient) :
    flushGuard fu fe (recordResponse respond fu2 fe2 ft st) = flushGuard fu fe st := rfl

theorem flushLoop_apiError_inv (respond : RequestBody → HttpResponse) (fu fe : Bool)
    (ft : Datetime) :
    ∀ (fuel : Nat) (st : BrazeClient) (err : Value) (st' : BrazeClient)
      (l p : List RequestBody),
    flushLoop respond fu fe ft fuel st = .apiError err st' l p →
    ∃ b, p.getLast? = some b ∧ b = buildRequestBody fu fe st' ∧
      respError (respond b).body = some err ∧ flushGuard fu fe st' = true ∧
      st'.config.send = true := by
  intro fuel
  induction fuel with
  | zero =>
    intro st err st' l p h
    by_cases hg : flushGuard fu fe st = true <;> simp [flushLoop, hg] at h
  | succ n ih =>
    intro st err st' l p h
    by_cases hg : flushGuard fu fe st = true
    · by_cases hsend : st.config.send = true
      · cases herr : respError (respond (buildRequestBody fu fe st)).body with
        | some e =>
          have hstep : flushLoop respond fu fe ft (n + 1) st
              = .apiError e (recordResponse respond fu fe ft st) (logContrib fu fe st)
                  [buildRequestBody fu fe st] := by
            simp [flushLoop, hg, hsend, herr]
          rw [hstep] at h
          injection h with h1 h2 h3 h4
          refine ⟨buildRequestBody fu fe st, ?_, ?_, ?_, ?_, ?_⟩
          · rw [← h4]; rfl
          · rw [← h2, buildRequestBody_recordResponse]
          · rw [herr, h1]
          · rw [← h2, flushGuard_recordResponse]; exact hg
          · rw [← h2, recordResponse_config]; exact hsend
        | none =>
          have hstep : flushLoop respond fu fe ft (n + 1) st
              = prependResult (logContrib fu fe st) [buildRequestBody fu fe st]
                  (flushLoop respond fu fe ft n
                    (pruneQueues (recordResponse respond fu fe ft st) (userBatchSize fu st)
                      (eventBatchSize fe st))) := by
            simp [flushLoop, hg, hsend, herr]
          rw [hstep] at h
          cases hrec : flushLoop respond fu fe ft n
              (pruneQueues (recordResponse respond fu fe ft st) (userBatchSize fu st)
                (eventBatchSize fe st)) with
          | ok s2 l2 p2 => rw [hrec] at h; simp [prependResult] at h
          | diverged s2 l2 p2 => rw [hrec] at h; simp [prependResult] at h
          | apiError e2 s2 l2 p2 =>
            rw [hrec] at h
            simp only [prependResult] at h
            injection h with h1 h2 h3 h4
            obtain ⟨b, hb1, hb2, hb3, hb4, hb5⟩ := ih _ _ _ _ _ hrec
            refine ⟨b, ?_, ?_, ?_, ?_, ?_⟩
            · rw [← h4]
              exact getLast?_cons_of_some _ _ _ hb1
            · rw [← h2]; exact hb2
            · rw [← h1]; exact hb3
            · rw [← h2]; exact hb4
            · rw [← h2]; exact hb5
      · have hsendf : st.config.send = false := by
          cases hss : st.config.send
          · rfl
          · exact absurd hss hsend
        have hstep : flushLoop respond fu fe ft (n + 1) st
            = prependResult (logContrib fu fe st) []
                (flushLoop respond fu fe ft n
                  (pruneQueues (recordRequest fu fe ft st) (userBatchSize fu st)
                    (eventBatchSize fe st))) := by
          simp [flushLoop, hg, hsendf]
        rw [hstep] at h
        cases hrec : flushLoop respond fu fe ft n
            (pruneQueues (recordRequest fu fe ft st) (userBatchSize fu st)
              (eventBatchSize fe st)) with
        | ok s2 l2 p2 => rw [hrec] at h; simp [prependResult] at h
        | diverged s2 l2 p2 => rw [hrec] at h; simp [prependResult] at h
        | apiError e2 s2 l2 p2 =>
          rw [hrec] at h
          simp only [prependResult] at h
          injection h with h1 h2 h3 h4
          obtain ⟨b, hb1, hb2, hb3, hb4, hb5⟩ := ih _ _ _ _ _ hrec
          refine ⟨b, ?_, ?_, ?_, ?_, ?_⟩
          · rw [← h4]; simpa using hb1
          · rw [← h2]; exact hb2
          · rw [← h1]; exact hb3
          · rw [← h2]; exact hb4
          · rw [← h2]; exact hb5
    · have hg' : flushGuard fu fe st = false := by
        cases hgg : flushGuard fu fe st
        · rfl
        · exact absurd hgg hg
      rw [flushLoop_guard_false respond fu fe ft st hg' (n + 1)] at h
      simp at h

theorem flushLoop_error_first (respond : RequestBody → HttpResponse) (fu fe : Bool)
    (ft : Datetime) (st : BrazeClient) (e : Value)
    (hg : flushGuard fu fe st = true) (hsend : st.config.send = true)
    (herr : respError (respond (buildRequestBody fu fe st)).body = some e) (fuel : Nat) :
    flushLoop respond fu fe ft (fuel + 1) st
      = .apiError e (recordResponse respond fu fe ft st) (logContrib fu fe st)
          [buildRequestBody fu fe st] := by
  simp [flushLoop, hg, hsend, herr]

theorem recordRequest_requests (fu fe : Bool) (ft : Datetime) (st : BrazeClient) :
    (recordRequest fu fe ft st).requests = alSet st.requests ft (baseEntry ft fu fe st) := rfl

theorem recordResponse_requests (respond : RequestBody → HttpResponse) (fu fe : Bool)
    (ft : Datetime) (st : BrazeClient) :
    (recordResponse respond fu fe ft st).requests
      = alSet (alSet st.requests ft (baseEntry ft fu fe st)) ft
          (sentEntry respond ft fu fe st) := rfl

theorem flushLoop_requests_other_keys (respond : RequestBody → HttpResponse) (fu fe : Bool)
    (ft : Datetime) : ∀ (fuel : Nat) (st : BrazeClient) (k : Datetime), k ≠ ft →
    alGet (flushLoop respond fu fe ft fuel st).state.requests k = alGet st.requests k := by
  intro fuel
  induction fuel with
  | zero =>
    intro st k hk
    by_cases hg : flushGuard fu fe st = true <;> simp [flushLoop, hg, FlushResult.state]
  | succ n ih =>
    intro st k hk
    by_cases hg : flushGuard fu fe st = true
    · by_cases hsend : st.config.send = true
      · cases herr : respError (respond (buildRequestBody fu fe st)).body with
        | some e =>
          rw [flushLoop_error_first respond fu fe ft st e hg hsend herr n]
          simp only [FlushResult.state]
          rw [recordResponse_requests, alGet_alSet_ne _ _ hk, alGet_alSet_ne _ _ hk]
        | none =>
          have hstep : flushLoop respond fu fe ft (n + 1) st
              = prependResult (logContrib fu fe st) [buildRequestBody fu fe st]
                  (flushLoop respond fu fe ft n
                    (pruneQueues (recordResponse respond fu fe ft st) (userBatchSize fu st)
                      (eventBatchSize fe st))) := by
            simp [flushLoop, hg, hsend, herr]
          rw [hstep, prependResult_state, ih _ k hk, pruneQueues_requests,
            recordResponse_requests, alGet_alSet_ne _ _ hk, alGet_alSet_ne _ _ hk]
      · have hsendf : st.config.send = false := by
          cases hss : st.config.send
          · rfl
          · exact absurd hss hsend
        have hstep : flushLoop respond fu fe ft (n + 1) st
            = prependResult (logContrib fu fe st) []
                (flushLoop respond fu fe ft n
                  (pruneQueues (recordRequest fu fe ft st) (userBatchSize fu st)
                    (eventBatchSize fe st))) := by
          simp [flushLoop, hg, hsendf]
        rw [hstep, prependResult_state, ih _ k hk, pruneQueues_requests,
          recordRequest_requests, alGet_alSet_ne _ _ hk]
    · have hg' : flushGuard fu fe st = false := by
        cases hgg : flushGuard fu fe st
        · rfl
        · exact absurd hgg hg
      rw [flushLoop_guard_false respond fu fe ft st hg' (n + 1)]
      rfl

theorem flushLoop_dry_step (respond : RequestBody → HttpResponse) (fu fe : Bool) (ft : Datetime)
    (st : BrazeClient) (hg : flushGuard fu fe st = true) (hsend : st.config.send = false)
    (fuel n : Nat) (hf : fuel = n + 1) :
    flushLoop respond fu fe ft fuel st
      = prependResult (logContrib fu fe st) []
          (flushLoop respond fu fe ft n
            (pruneQueues (recordRequest fu fe ft st) (userBatchSize fu st)
              (eventBatchSize fe st))) := by
  subst hf
  simp [flushLoop, hg, hsend]

/-- Claim C4: with 200 pending users, batch size 75 and send disabled, one
`flush(flush_users=true, flush_events=false)` call produces exactly three
logged request bodies whose attribute lists are the three front slices of the
user queue in insertion order (lengths 75, 75 and 50), none of which carries
an events list; nothing is POSTed, the user queue is empty afterwards and the
event queue is untouched. -/
theorem flush_200_users_three_batches (respond : RequestBody → HttpResponse) (ft : Datetime)
    (st : BrazeClient) (f : String) (fuel : Nat)
    (hlen : st.user_queue.length = 200) (hbs : st.config.batch_size = 75)
    (hsend : st.config.send = false) (hlog : st.log = some f) (hfuel : 3 ≤ fuel) :
    ∃ st' l, BrazeClient.flush respond ft fuel st true false = .ok st' l [] ∧
      l.length = 3 ∧
      l.map (fun b => b.attributes)
        = [some ((st.user_queue.take 75).map BrazeUser.as_dict),
           some (((st.user_queue.drop 75).take 75).map BrazeUser.as_dict),
           some (((st.user_queue.drop 75).drop 75).map BrazeUser.as_dict)] ∧
      l.map (fun b => (b.attributes.getD []).length) = [75, 75, 50] ∧
      l.map (fun b => b.events) = [none, none, none] ∧
      st'.user_queue = [] ∧ st'.event_queue = st.event_queue := by
  obtain ⟨m, rfl⟩ : ∃ m, fuel = m + 3 := ⟨fuel - 3, by omega⟩
  have heb1 : eventBatchSize false st = 0 := rfl
  have hne1 : st.user_queue.isEmpty = false :=
    list_isEmpty_false_of_length_pos _ (by omega)
  have hg1 : flushGuard true false st = true := by simp [flushGuard, hne1]
  have hub1 : userBatchSize true st = 75 := by
    unfold userBatchSize
    rw [if_pos (by simp [hne1]), hlen, hbs]
    norm_num
  have step1 : flushLoop respond true false ft (m + 3) st
      = prependResult (logContrib true false st) []
          (flushLoop respond true false ft (m + 2)
            (pruneQueues (recordRequest true false ft st) (userBatchSize true st)
              (eventBatchSize false st))) :=
    flushLoop_dry_step respond true false ft st hg1 hsend (m + 3) (m + 2) rfl
  set E1 := pruneQueues (recordRequest true false ft st) (userBatchSize true st)
      (eventBatchSize false st) with hE1def
  have hE1u : E1.user_queue = st.user_queue.drop 75 := by
    rw [hE1def, pruneQueues_user_queue, recordRequest_user_queue, hub1,
      if_pos (by norm_num)]
  have hE1e : E1.event_queue = st.event_queue := by
    rw [hE1def, pruneQueues_event_queue, heb1, if_neg (by norm_num : ¬ (0 : Nat) < 0),
      recordRequest_event_queue]
  have hE1c : E1.config = st.config := by
    rw [hE1def, pruneQueues_config, recordRequest_config]
  have hE1log : E1.log = st.log := by
    rw [hE1def, pruneQueues_log, recordRequest_log]
  have hlen1 : E1.user_queue.length = 125 := by
    rw [hE1u]; simp [List.length_drop, hlen]
  have heb2 : eventBatchSize false E1 = 0 := rfl
  have hne2 : E1.user_queue.isEmpty = false :=
    list_isEmpty_false_of_length_pos _ (by omega)
  have hg2 : flushGuard true false E1 = true := by simp [flushGuard, hne2]
  have hsend2 : E1.config.send = false := by rw [hE1c]; exact hsend
  have hub2 : userBatchSize true E1 = 75 := by
    unfold userBatchSize
    rw [if_pos (by simp [hne2]), hlen1, hE1c, hbs]
    norm_num
  have step2 : flushLoop respond true false ft (m + 2) E1
      = prependResult (logContrib true false E1) []
          (flushLoop respond true false ft (m + 1)
            (pruneQueues (recordRequest true false ft E1) (userBatchSize true E1)
              (eventBatchSize false E1))) :=
    flushLoop_dry_step respond true false ft E1 hg2 hsend2 (m + 2) (m + 1) rfl
  set E2 := pruneQueues (recordRequest true false ft E1) (userBatchSize true E1)
      (eventBatchSize false E1) with hE2def
  have hE2u : E2.user_queue = E1.user_queue.drop 75 := by
    rw [hE2def, pruneQueues_user_queue, recordRequest_user_queue, hub2,
      if_pos (by norm_num)]
  have hE2e : E2.event_queue = E1.event_queue := by
    rw [hE2def, pruneQueues_event_queue, heb2, if_neg (by norm_num : ¬ (0 : Nat) < 0),
      recordRequest_event_queue]
  have hE2c : E2.config = E1.config := by
    rw [hE2def, pruneQueues_config, recordRequest_config]
  have hE2log : E2.log = E1.log := by
    rw [hE2def, pruneQueues_log, recordRequest_log]
  have hlen2 : E2.user_queue.length = 50 := by
    rw [hE2u]; simp [List.length_drop, hlen1]
  have heb3 : eventBatchSize false E2 = 0 := rfl
  have hne3 : E2.user_queue.isEmpty = false :=
    list_isEmpty_false_of_length_pos _ (by omega)
  have hg3 : flushGuard true false E2 = true := by simp [flushGuard, hne3]
  have hsend3 : E2.config.send = false := by rw [hE2c]; exact hsend2
  have hub3 : userBatchSize true E2 = 50 := by
    unfold userBatchSize
    rw [if_pos (by simp [hne3]), hlen2, hE2c, hE1c, hbs]
    norm_num
  have step3 : flushLoop respond true false ft (m + 1) E2
      = prependResult (logContrib true false E2) []
          (flushLoop respond true false ft m
            (pruneQueues (recordRequest true false ft E2) (userBatchSize true E2)
              (eventBatchSize false E2))) :=
    flushLoop_dry_step respond true false ft E2 hg3 hsend3 (m + 1) m rfl
  set E3 := pruneQueues (recordRequest true false ft E2) (userBatchSize true E2)
      (eventBatchSize false E2) with hE3def
  have hE3u : E3.user_queue = [] := by
    rw [hE3def, pruneQueues_user_queue, recordRequest_user_queue, hub3,
      if_pos (by norm_num)]
    exact List.drop_eq_nil_of_le (by omega)
  have hE3e : E3.event_queue = E2.event_queue := by
    rw [hE3def, pruneQueues_event_queue, heb3,
      if_neg (by norm_num : ¬ (0 : Nat) < 0), recordRequest_event_queue]
  have hg4 : flushGuard true false E3 = false := by simp [flushGuard, hE3u]
  have hend : flushLoop respond true false ft m E3 = .ok E3 [] [] :=
    flushLoop_guard_false respond true false ft E3 hg4 m
  have hL1 : logContrib true false st = [buildRequestBody true false st] := by
    simp [logContrib, hlog]
  have hL2 : logContrib true false E1 = [buildRequestBody true false E1] := by
    simp [logContrib, hE1log, hlog]
  have hL3 : logContrib true false E2 = [buildRequestBody true false E2] := by
    simp [logContrib, hE2log, hE1log, hlog]
  have hb1a : (buildRequestBody true false st).attributes
      = some ((st.user_queue.take 75).map BrazeUser.as_dict) := by
    simp [buildRequestBody, hne1, hub1]
  have hb2a : (buildRequestBody true false E1).attributes
      = some (((st.user_queue.drop 75).take 75).map BrazeUser.as_dict) := by
    simp [buildRequestBody, hne2, hub2, hE1u, hlen]
  have hb3a : (buildRequestBody true false E2).attributes
      = some (((st.user_queue.drop 75).drop 75).map BrazeUser.as_dict) := by
    have htk : E2.user_queue.take 50 = E2.user_queue :=
      List.take_of_length_le (by omega)
    simp [buildRequestBody, hne3, hub3, htk, hE2u, hE1u, hlen]
  have hb1e : (buildRequestBody true false st).events = none := by
    simp [buildRequestBody]
  have hb2e : (buildRequestBody true false E1).events = none := by
    simp [buildRequestBody]
  have hb3e : (buildRequestBody true false E2).events = none := by
    simp [buildRequestBody]
  refine ⟨E3, [buildRequestBody true false st, buildRequestBody true false E1,
    buildRequestBody true false E2], ?_, rfl, ?_, ?_, ?_, hE3u, ?_⟩
  · show flushLoop respond true false ft (m + 3) st = _
    rw [step1, step2, step3, hend, hL1, hL2, hL3]
    rfl
  · simp [hb1a, hb2a, hb3a]
  · simp only [List.map_cons, List.map_nil, hb1a, hb2a, hb3a]
    simp [List.length_map, List.length_take, List.length_drop, hlen]
  · simp [hb1e, hb2e, hb3e]
  · rw [hE3e, hE2e, hE1e]

/-- Claim C6: when `send` is false a flush performs no network dispatch at
all: request bodies are constructed and logged but nothing is POSTed, however
many batches the loop processes. -/
theorem no_post_when_send_disabled (respond : RequestBody → HttpResponse)
    (fu fe : Bool) (ft : Datetime) (fuel : Nat) (st : BrazeClient)
    (hsend : st.config.send = false) :
    (BrazeClient.flush respond ft fuel st fu fe).posted = [] :=
  flushLoop_posted_nil respond fu fe ft fuel st hsend

theorem no_post_when_send_disabled_witness :
    (BrazeClient.flush respondOk ft0 2 st0 true true).posted = [] :=
  no_post_when_send_disabled respondOk true true ft0 2 st0 rfl

/-- Claim C7: `BrazeClient.enqueue` called with an object that is neither a
recognized user nor event variant raises a `ValueError` and leaves the state
(both queues) unchanged; a user variant is appended to the user queue and an
event variant to the event queue, the other queue untouched, before any
auto-flush is considered. -/
theorem client_enqueue_dispatch_by_variant (respond : RequestBody → HttpResponse)
    (ft : Datetime) (fuel : Nat) (st : BrazeClient) (u : BrazeUser) (e : BrazeEvent) :
    BrazeClient.enqueue respond ft fuel st .other
        = .usageError "Object passed is neither a BrazeUser nor a BrazeEvent" st ∧
    (∃ st1, enqueueDispatch st (.user u) = .ok st1 ∧
      st1.user_queue = st.user_queue ++ [u] ∧ st1.event_queue = st.event_queue ∧
      (BrazeClient.enqueue respond ft fuel st (.user u) = .noFlush st1 ∨
       BrazeClient.enqueue respond ft fuel st (.user u)
         = .flushed (BrazeClient.flush respond ft fuel st1 true true))) ∧
    (∃ st1, enqueueDispatch st (.event e) = .ok st1 ∧
      st1.event_queue = st.event_queue ++ [e] ∧ st1.user_queue = st.user_queue ∧
      (BrazeClient.enqueue respond ft fuel st (.event e) = .noFlush st1 ∨
       BrazeClient.enqueue respond ft fuel st (.event e)
         = .flushed (BrazeClient.flush respond ft fuel st1 true true))) := by
  refine ⟨rfl, ⟨_, rfl, rfl, rfl, ?_⟩, ⟨_, rfl, rfl, rfl, ?_⟩⟩
  · have hsh : BrazeClient.enqueue respond ft fuel st (Record.user u)
        = if st.config.auto_flush = true ∧
              (st.config.batch_size ≤ (st.user_queue ++ [u]).length ∨
               st.config.batch_size ≤ st.event_queue.length) then
            .flushed (BrazeClient.flush respond ft fuel
              { st with user_queue := st.user_queue ++ [u] } true true)
          else .noFlush { st with user_queue := st.user_queue ++ [u] } := rfl
    by_cases hc : st.config.auto_flush = true ∧
        (st.config.batch_size ≤ (st.user_queue ++ [u]).length ∨
         st.config.batch_size ≤ st.event_queue.length)
    · right; rw [hsh, if_pos hc]
    · left; rw [hsh, if_neg hc]
  · have hsh : BrazeClient.enqueue respond ft fuel st (Record.event e)
        = if st.config.auto_flush = true ∧
              (st.config.batch_size ≤ st.user_queue.length ∨
               st.config.batch_size ≤ (st.event_queue ++ [e]).length) then
            .flushed (BrazeClient.flush respond ft fuel
              { st with event_queue := st.event_queue ++ [e] } true true)
          else .noFlush { st with event_queue := st.event_queue ++ [e] } := rfl
    by_cases hc : st.config.auto_flush = true ∧
        (st.config.batch_size ≤ st.user_queue.length ∨
         st.config.batch_size ≤ (st.event_queue ++ [e]).length)
    · right; rw [hsh, if_pos hc]
    · left; rw [hsh, if_neg hc]

/-- Claim C5: with auto-flush enabled and batch size `B`, enqueueing the
`B`-th user triggers exactly one synchronous flush of both queues before the
call returns, and (send disabled, so nothing fails) it leaves both queues
empty — in particular fewer than `B` users remain; moreover any enqueue that
appends successfully triggers the flush exactly when auto-flush is on and
either queue's length after the append has reached or exceeded the batch
size. -/
theorem auto_flush_on_batch_size_reached (respond : RequestBody → HttpResponse)
    (ft : Datetime) (fuel : Nat) (st : BrazeClient) (u : BrazeUser) (B : Nat)
    (hauto : st.config.auto_flush = true) (hB : st.config.batch_size = B) (hpos : 0 < B)
    (hlen : st.user_queue.length + 1 = B) (hsend : st.config.send = false)
    (hfuel : B + st.event_queue.length ≤ fuel) :
    (∃ st' l, BrazeClient.enqueue respond ft fuel st (.user u)
        = .flushed (.ok st' l []) ∧ st'.user_queue = [] ∧ st'.event_queue = [] ∧
        st'.user_queue.length < B) ∧
    (∀ (st2 : BrazeClient) (obj : Record) (st3 : BrazeClient),
      enqueueDispatch st2 obj = .ok st3 →
      ((∃ fr, BrazeClient.enqueue respond ft fuel st2 obj = .flushed fr) ↔
        (st2.config.auto_flush = true ∧
          (st2.config.batch_size ≤ st3.user_queue.length ∨
           st2.config.batch_size ≤ st3.event_queue.length)))) := by
  constructor
  · have hsh : BrazeClient.enqueue respond ft fuel st (Record.user u)
        = if st.config.auto_flush = true ∧
              (st.config.batch_size ≤ (st.user_queue ++ [u]).length ∨
               st.config.batch_size ≤ st.event_queue.length) then
            .flushed (BrazeClient.flush respond ft fuel
              { st with user_queue := st.user_queue ++ [u] } true true)
          else .noFlush { st with user_queue := st.user_queue ++ [u] } := rfl
    have hc : st.config.auto_flush = true ∧
        (st.config.batch_size ≤ (st.user_queue ++ [u]).length ∨
         st.config.batch_size ≤ st.event_queue.length) := by
      refine ⟨hauto, Or.inl ?_⟩
      rw [hB]
      simp [List.length_append]
      omega
    obtain ⟨st', l, heq, hu, he, hcfg⟩ := flushLoop_drain respond ft fuel
      { st with user_queue := st.user_queue ++ [u] } hsend (by rw [hB]; exact hpos)
      (by simp [List.length_append]; omega)
    refine ⟨st', l, ?_, hu, he, ?_⟩
    · rw [hsh, if_pos hc]
      show EnqueueResult.flushed
          (flushLoop respond true true ft fuel { st with user_queue := st.user_queue ++ [u] })
        = _
      rw [heq]
    · rw [hu]
      simpa using hpos
  · intro st2 obj st3 hd
    cases obj with
    | other => simp [enqueueDispatch] at hd
    | user u2 =>
      have hst3 : st3 = { st2 with user_queue := st2.user_queue ++ [u2] } := by
        have h2 := hd
        simp only [enqueueDispatch, Except.ok.injEq] at h2
        exact h2.symm
      subst hst3
      have hsh : BrazeClient.enqueue respond ft fuel st2 (Record.user u2)
          = if st2.config.auto_flush = true ∧
                (st2.config.batch_size ≤ (st2.user_queue ++ [u2]).length ∨
                 st2.config.batch_size ≤ st2.event_queue.length) then
              .flushed (BrazeClient.flush respond ft fuel
                { st2 with user_queue := st2.user_queue ++ [u2] } true true)
            else .noFlush { st2 with user_queue := st2.user_queue ++ [u2] } := rfl
      by_cases hc : st2.config.auto_flush = true ∧
          (st2.config.batch_size ≤ (st2.user_queue ++ [u2]).length ∨
           st2.config.batch_size ≤ st2.event_queue.length)
      · rw [hsh, if_pos hc]
        exact ⟨fun _ => hc, fun _ => ⟨_, rfl⟩⟩
      · rw [hsh, if_neg hc]
        constructor
        · rintro ⟨fr, hfr⟩
          simp at hfr
        · intro h
          exact absurd h hc
    | event e2 =>
      have hst3 : st3 = { st2 with event_queue := st2.event_queue ++ [e2] } := by
        have h2 := hd
        simp only [enqueueDispatch, Except.ok.injEq] at h2
        exact h2.symm
      subst hst3
      have hsh : BrazeClient.enqueue respond ft fuel st2 (Record.event e2)
          = if st2.config.auto_flush = true ∧
                (st2.config.batch_size ≤ st2.user_queue.length ∨
                 st2.config.batch_size ≤ (st2.event_queue ++ [e2]).length) then
              .flushed (BrazeClient.flush respond ft fuel
                { st2 with event_queue := st2.event_queue ++ [e2] } true true)
            else .noFlush { st2 with event_queue := st2.event_queue ++ [e2] } := rfl
      by_cases hc : st2.config.auto_flush = true ∧
          (st2.config.batch_size ≤ st2.user_queue.length ∨
           st2.config.batch_size ≤ (st2.event_queue ++ [e2]).length)
      · rw [hsh, if_pos hc]
        exact ⟨fun _ => hc, fun _ => ⟨_, rfl⟩⟩
      · rw [hsh, if_neg hc]
        constructor
        · rintro ⟨fr, hfr⟩
          simp at hfr
        · intro h
          exact absurd h hc

/-- Claim C1: with send enabled, when a dispatch response carries a non-null
`error` field the flush call raises the API error immediately — the two queue
pruning steps of that iteration are skipped, so both queues are exactly as
they were at the start of the iteration and the request body a subsequent
flush call constructs is exactly the body that just failed; moreover whenever
any flush call ends in the API error, the last POSTed body equals the body
rebuilt from the resulting state, and a subsequent flush call POSTs exactly
that same body again. -/
theorem flush_api_error_keeps_batch (respond : RequestBody → HttpResponse)
    (fu fe : Bool) (ft : Datetime) :
    (∀ (st : BrazeClient) (e : Value) (fuel : Nat),
      flushGuard fu fe st = true → st.config.send = true →
      respError (respond (buildRequestBody fu fe st)).body = some e →
      ∃ st', BrazeClient.flush respond ft (fuel + 1) st fu fe
          = .apiError e st' (logContrib fu fe st) [buildRequestBody fu fe st] ∧
        st'.user_queue = st.user_queue ∧ st'.event_queue = st.event_queue ∧
        buildRequestBody fu fe st' = buildRequestBody fu fe st) ∧
    (∀ (fuel : Nat) (st : BrazeClient) (err : Value) (st' : BrazeClient)
        (l p : List RequestBody),
      BrazeClient.flush respond ft fuel st fu fe = .apiError err st' l p →
      ∃ b, p.getLast? = some b ∧ b = buildRequestBody fu fe st' ∧
        respError (respond b).body = some err ∧
        (∀ (ft2 : Datetime) (k : Nat),
          (BrazeClient.flush respond ft2 (k + 1) st' fu fe).posted = [b])) := by
  constructor
  · intro st e fuel hg hsend herr
    exact ⟨recordResponse respond fu fe ft st,
      flushLoop_error_first respond fu fe ft st e hg hsend herr fuel,
      recordResponse_user_queue respond fu fe ft st,
      recordResponse_event_queue respond fu fe ft st,
      buildRequestBody_recordResponse respond fu fe fu fe ft st⟩
  · intro fuel st err st' l p h
    obtain ⟨b, hb1, hb2, hb3, hb4, hb5⟩ :=
      flushLoop_apiError_inv respond fu fe ft fuel st err st' l p h
    refine ⟨b, hb1, hb2, hb3, ?_⟩
    intro ft2 k
    have hstep := flushLoop_error_first respond fu fe ft2 st' err hb4 hb5
      (by rw [← hb2]; exact hb3) k
    show (flushLoop respond fu fe ft2 (k + 1) st').posted = [b]
    rw [hstep]
    simp only [FlushResult.posted]
    rw [hb2]

theorem flush_api_error_keeps_batch_witness :
    ∃ st', BrazeClient.flush respondErr ft0 1 stSend true true
        = .apiError (Value.str "boom") st' (logContrib true true stSend)
            [buildRequestBody true true stSend] ∧
      st'.user_queue = stSend.user_queue ∧ st'.event_queue = stSend.event_queue ∧
      buildRequestBody true true st' = buildRequestBody true true stSend :=
  (flush_api_error_keeps_batch respondErr true true ft0).1 stSend (Value.str "boom") 0
    rfl rfl rfl

/-- Claim C2 counterexample: a single dry-run flush of two users at batch
size 1 constructs and logs two distinct request bodies, yet the requests
mapping ends with exactly one entry — both batches were written under the
same flush-timestamp key and the second overwrote the first, so not every
constructed body is recorded as its own entry. -/
theorem requests_overwritten_within_single_flush :
    (BrazeClient.flush respondOk ft0 2 st0 true true).logged.length = 2 ∧
    (BrazeClient.flush respondOk ft0 2 st0 true true).state.requests.length = 1 ∧
    (BrazeClient.flush respondOk ft0 2 st0 true true).state.requests.map
        (fun kv => kv.2.request.attributes) = [some [BrazeUser.as_dict u2c]] ∧
    (BrazeClient.flush respondOk ft0 2 st0 true true).logged.map (fun b => b.attributes)
      = [some [BrazeUser.as_dict u1c], some [BrazeUser.as_dict u2c]] ∧
    BrazeUser.as_dict u1c ≠ BrazeUser.as_dict u2c := by
  refine ⟨rfl, rfl, rfl, rfl, ?_⟩
  intro h
  have h2 := congrArg (fun d => alGet d "external_campaign_id") h
  simp only [BrazeUser.as_dict, serializeItems, u1c, u2c, List.foldl_nil, alGet] at h2
  simp at h2

/-- Claim C2 (amended): the request log is keyed by the one flush timestamp
taken at the start of each flush call; a flush call therefore never
overwrites or removes an entry recorded under any other timestamp, while all
batches dispatched within a single flush call share that one key, each later
batch overwriting the entry of the previous one, so only the last batch's
record survives the call. -/
theorem requests_other_keys_preserved (respond : RequestBody → HttpResponse)
    (fu fe : Bool) (ft : Datetime) (fuel : Nat) (st : BrazeClient) (k : Datetime)
    (hk : k ≠ ft) :
    alGet (BrazeClient.flush respond ft fuel st fu fe).state.requests k
      = alGet st.requests k :=
  flushLoop_requests_other_keys respond fu fe ft fuel st k hk

theorem requests_other_keys_preserved_witness :
    alGet (BrazeClient.flush respondOk ft0 2 st0 true true).state.requests ft1
      = alGet st0.requests ft1 :=
  requests_other_keys_preserved respondOk true true ft0 2 st0 ft1 (by decide)

/-- Claim C3: a record's own `enqueue` with neither an explicit batcher nor a
stored back-reference executes `return ValueError(...)`: the error object is
handed back as an ordinary return value and no exception is raised, so a
caller that ignores the return value observes nothing — the documented
behavior (failing with a configuration error) never happens; when a batcher
is available the record is handed to it, the explicit argument taking
precedence over the stored back-reference. -/
theorem record_enqueue_returns_error_not_raised :
    BrazeUser.enqueue uNoB none
        = .returnedValue "Braze API handler neither set nor passed as parameter" ∧
    BrazeEvent.enqueue eNoB none
        = .returnedValue "Braze handler neither set nor passed as parameter" ∧
    (∀ m : String, BrazeUser.enqueue uNoB none ≠ RecordEnqueueOutcome.raised m) ∧
    (∀ m : String, BrazeEvent.enqueue eNoB none ≠ RecordEnqueueOutcome.raised m) ∧
    BrazeUser.enqueue uWithB (some 2) = .handedTo 2 ∧
    BrazeUser.enqueue uNoB (some 3) = .handedTo 3 ∧
    BrazeUser.enqueue uWithB none = .handedTo 1 := by
  refine ⟨rfl, rfl, ?_, ?_, rfl, rfl, rfl⟩
  · intro m h
    exact RecordEnqueueOutcome.noConfusion h
  · intro m h
    exact RecordEnqueueOutcome.noConfusion h

/-- Claim C8: serialization maps each trait/property value by these rules: a
timestamp is rendered as the string equal to its canonical ISO-8601 form, a
null value appears explicitly as null in the output (it is not omitted), and
any other value passes through unchanged — for user traits directly in the
serialized mapping and for event properties inside the nested `properties`
mapping. -/
theorem serialization_value_rules (u : BrazeUser) (e : BrazeEvent) (k1 k2 : String)
    (v w : Value) (d : Datetime)
    (hnu : (u.traits.map Prod.fst).Nodup) (hv : alGet u.traits k1 = some v)
    (hne : (e.properties.map Prod.fst).Nodup) (hw : alGet e.properties k2 = some w) :
    alGet (BrazeUser.as_dict u) k1 = some (serializeValue v) ∧
    (∃ props, alGet (BrazeEvent.as_dict e) "properties" = some (Value.obj props) ∧
      alGet props k2 = some (serializeValue w)) ∧
    serializeValue Value.null = Value.null ∧
    serializeValue (Value.timestamp d) = Value.str d.iso ∧
    (∀ x : Value, x ≠ Value.null → (∀ dt, x ≠ Value.timestamp dt) →
      serializeValue x = x) := by
  refine ⟨?_, ?_, rfl, rfl, ?_⟩
  · exact alGet_serializeItems u.traits _ k1 v hnu hv
  · have hpne : e.properties.isEmpty = false := by
      cases hp : e.properties with
      | nil => rw [hp] at hw; simp [alGet] at hw
      | cons a t => rfl
    refine ⟨serializeItems [] e.properties, ?_,
      alGet_serializeItems e.properties [] k2 w hne hw⟩
    simp [BrazeEvent.as_dict, hpne, alGet_alSet_self]
  · intro x hx1 hx2
    cases x with
    | null => exact absurd rfl hx1
    | timestamp dt => exact absurd rfl (hx2 dt)
    | str s => rfl
    | num n => rfl
    | bool b => rfl
    | obj fs => rfl

theorem serialization_value_rules_witness :
    alGet (BrazeUser.as_dict u8) "signup"
        = some (serializeValue (Value.timestamp dt8)) ∧
    (∃ props, alGet (BrazeEvent.as_dict e8) "properties" = some (Value.obj props) ∧
      alGet props "when" = some (serializeValue (Value.timestamp dt8))) ∧
    serializeValue Value.null = Value.null ∧
    serializeValue (Value.timestamp dt8) = Value.str dt8.iso ∧
    (∀ x : Value, x ≠ Value.null → (∀ dt, x ≠ Value.timestamp dt) →
      serializeValue x = x) :=
  serialization_value_rules u8 e8 "signup" "when" (Value.timestamp dt8)
    (Value.timestamp dt8) dt8 (by decide) rfl (by decide) rfl

/-- Claim C9: the factory `BrazeClient.event` always fails with a TypeError
before any event is constructed or enqueued: the `BrazeEvent` constructor is
invoked with `external_campaign_id=...` while its required `external_id`
parameter is never supplied (the caller's own `external_id` keyword can never
reach the inner `**kwargs` because it binds the factory's parameter); the
client state, in particular both queues, is returned untouched. -/
theorem client_event_always_type_error (st : BrazeClient) (eid nm ts : PyArg)
    (kwargs : List (String × PyArg)) (hk : alGet kwargs "external_id" = none) :
    ∃ msg, BrazeClient.event st eid nm ts kwargs = (Except.error msg, st) := by
  unfold BrazeClient.event
  by_cases hdup : kwargs.any
      (fun kv => ["external_campaign_id", "name", "timestamp", "braze"].contains kv.1)
  · exact ⟨"TypeError: got multiple values for a keyword argument", by rw [if_pos hdup]⟩
  · refine ⟨"TypeError: __init__ missing 1 required positional argument: external_id", ?_⟩
    rw [if_neg hdup]
    have halget : alGet ([("external_campaign_id", eid), ("name", nm),
        ("timestamp", ts), ("braze", PyArg.clientRef)] ++ kwargs) "external_id" = none := by
      rw [alGet_append_of_none _ _ _ (by simp [alGet])]
      exact hk
    have hb : bindBrazeEventInit ([("external_campaign_id", eid), ("name", nm),
        ("timestamp", ts), ("braze", PyArg.clientRef)] ++ kwargs)
        = Except.error
            "TypeError: __init__ missing 1 required positional argument: external_id" := by
      unfold bindBrazeEventInit
      rw [halget]
    rw [hb]

theorem client_event_always_type_error_witness :
    ∃ msg, BrazeClient.event st0 (PyArg.val (Value.str "e")) (PyArg.val (Value.str "n"))
        (PyArg.val Value.null) [] = (Except.error msg, st0) :=
  client_event_always_type_error st0 (PyArg.val (Value.str "e"))
    (PyArg.val (Value.str "n")) (PyArg.val Value.null) [] rfl

/-- Claim C10: the serialized identity fields of a user are not protected
from trait-key collisions: when the traits mapping binds the key
`external_campaign_id` or `update_existing_only`, the serialized mapping
carries the (serialized) trait value under that key — the trait overwrote the
identity field, because the identity keys are written first and the traits
are merged over them afterwards. -/
theorem trait_key_collision_overwrites_identity (u : BrazeUser) (v1 v2 : Value)
    (hnd : (u.traits.map Prod.fst).Nodup) :
    (alGet u.traits "external_campaign_id" = some v1 →
      alGet (BrazeUser.as_dict u) "external_campaign_id" = some (serializeValue v1)) ∧
    (alGet u.traits "update_existing_only" = some v2 →
      alGet (BrazeUser.as_dict u) "update_existing_only" = some (serializeValue v2)) :=
  ⟨fun h => alGet_serializeItems u.traits _ _ v1 hnd h,
   fun h => alGet_serializeItems u.traits _ _ v2 hnd h⟩

theorem trait_key_collision_overwrites_identity_witness :
    alGet (BrazeUser.as_dict u10) "external_campaign_id" = some (Value.str "fake") ∧
    alGet (BrazeUser.as_dict u10) "update_existing_only" = some (Value.bool true) :=
  ⟨(trait_key_collision_overwrites_identity u10 (Value.str "fake") (Value.bool true)
      (by decide)).1 rfl,
   (trait_key_collision_overwrites_identity u10 (Value.str "fake") (Value.bool true)
      (by decide)).2 rfl⟩

theorem flush_200_users_three_batches_witness :
    ∃ st' l, BrazeClient.flush respondOk ft0 3 st4 true false = .ok st' l [] ∧
      l.length = 3 ∧
      l.map (fun b => b.attributes)
        = [some ((st4.user_queue.take 75).map BrazeUser.as_dict),
           some (((st4.user_queue.drop 75).take 75).map BrazeUser.as_dict),
           some (((st4.user_queue.drop 75).drop 75).map BrazeUser.as_dict)] ∧
      l.map (fun b => (b.attributes.getD []).length) = [75, 75, 50] ∧
      l.map (fun b => b.events) = [none, none, none] ∧
      st'.user_queue = [] ∧ st'.event_queue = st4.event_queue :=
  flush_200_users_three_batches respondOk ft0 st4 "braze.log" 3
    (show (List.replicate 200 u1c).length = 200 from List.length_replicate 200 u1c) rfl rfl
    rfl (by norm_num)

theorem auto_flush_on_batch_size_reached_witness :
    (∃ st' l, BrazeClient.enqueue respondOk ft0 2 st5 (.user u2c)
        = .flushed (.ok st' l []) ∧ st'.user_queue = [] ∧ st'.event_queue = [] ∧
        st'.user_queue.length < 2) ∧
    (∀ (st2 : BrazeClient) (obj : Record) (st3 : BrazeClient),
      enqueueDispatch st2 obj = .ok st3 →
      ((∃ fr, BrazeClient.enqueue respondOk ft0 2 st2 obj = .flushed fr) ↔
        (st2.config.auto_flush = true ∧
          (st2.config.batch_size ≤ st3.user_queue.length ∨
           st2.config.batch_size ≤ st3.event_queue.length)))) :=
  auto_flush_on_batch_size_reached respondOk ft0 2 st5 u2c 2 rfl rfl (by decide)
    (by decide) rfl (by decide)
